import Mathlib

/-!
Verification development for the Network-Information-Tool repository
(`network_analyzer.py`).  The Python source is shallowly embedded: each
relevant method is translated into an executable Lean definition over
`List Char` / `String`, external effects (sockets, HTTP, the speedtest
library) are passed in as explicit outcome parameters, and the claims of
the specification are settled as theorems about these definitions.
-/

/- ## Python string primitives

The parser methods use `str.strip()`, `str.split('\n')`, `str.startswith`
and `re.split(r'\s+', ...)`.  We model them over `List Char`, restricted
to the ASCII fragment (the routing-table text the program consumes is
ASCII command output). -/

/-- Python whitespace characters (ASCII fragment): the characters removed
by `str.strip()` and matched by `\s` — space, tab, newline, carriage
return, vertical tab, form feed. -/
def pyWhite (c : Char) : Bool :=
  c = ' ' || c = '\t' || c = '\n' || c = '\r' || c = Char.ofNat 11 || c = Char.ofNat 12

/-- Model of Python `str.strip()`: drop leading and trailing whitespace. -/
def pyStripL (l : List Char) : List Char :=
  ((l.dropWhile pyWhite).reverse.dropWhile pyWhite).reverse

/-- One step of splitting a character list at separators chosen by `p`.
Used with `List.foldr` and initial accumulator `[[]]`, it reproduces
Python `str.split(sep)` (keeping empty pieces). -/
def splitStep (p : Char → Bool) (c : Char) (acc : List (List Char)) : List (List Char) :=
  if p c then [] :: acc
  else
    match acc with
    | [] => [[c]]
    | g :: gs => (c :: g) :: gs

/-- Split a character list at every character satisfying `p`, keeping
empty pieces, exactly as Python `str.split(sep)` does. -/
def splitByP (p : Char → Bool) (l : List Char) : List (List Char) :=
  l.foldr (splitStep p) [[]]

/-- Model of Python `output.split('\n')`. -/
def splitLines (l : List Char) : List (List Char) :=
  splitByP (fun c => c = '\n') l

/-- Model of `re.split(r'\s+', line)` applied to an already-stripped
line: the maximal runs of non-whitespace characters.  (On a stripped
line `re.split(r'\s+', ...)` produces no empty pieces, so dropping the
empty groups is exact; on the empty stripped line the parser's guards
fail before the split result is ever inspected.) -/
def tokensOf (l : List Char) : List (List Char) :=
  (splitByP pyWhite l).filter (fun g => g ≠ [])

/-- Model of Python `str.startswith(pat)` (second argument is the
pattern). -/
def startsWithL : List Char → List Char → Bool
  | _, [] => true
  | [], _ :: _ => false
  | c :: cs, d :: ds => c = d && startsWithL cs ds

/- ## The regex `^\d+\.\d+\.\d+\.\d+` of `_parse_unix_route` -/

/-- Consume one-or-more ASCII digits (`\d+`), returning the rest of the
input, or `none` when the input does not start with a digit. -/
def digitsThen : List Char → Option (List Char)
  | [] => none
  | c :: cs => if c.isDigit then some (cs.dropWhile Char.isDigit) else none

/-- Consume a literal dot (`\.`). -/
def dotThen : List Char → Option (List Char)
  | '.' :: cs => some cs
  | _ => none

/-- Model of `re.match(r'^\d+\.\d+\.\d+\.\d+', line)` being a match:
digits, dot, digits, dot, digits, dot, digits, anchored at the start of
the line.  (`\d+` is greedy; since a digit and a dot are disjoint, the
greedy parse is the only one, so no backtracking is needed.) -/
def matchesDottedL (l : List Char) : Bool :=
  (((((((digitsThen l).bind dotThen).bind digitsThen).bind
    dotThen).bind digitsThen).bind dotThen).bind digitsThen).isSome

/- ## The RouteRecord data model

`_parse_unix_route` builds dicts with keys Destination / Gateway /
Genmask / Flags / Interface and `_parse_windows_route` with keys
Destination / Netmask / Gateway / Interface / Metric; the display layer
(lines 395-420) reads them through the common normalized shape
{Destination, Gateway, Netmask := Netmask|Genmask, Interface,
MetricOrFlags := Metric|Flags}, which is the record below. -/

/-- One normalized routing-table entry. -/
structure RouteRecord where
  destination : String
  gateway : String
  netmask : String
  interface : String
  metricOrFlags : String
deriving DecidableEq, Repr

/-- The character list of the literal `"default"`. -/
def defaultTok : List Char := ['d', 'e', 'f', 'a', 'u', 'l', 't']

/-- The character list of the literal `"0.0.0.0"`. -/
def zeroTok : List Char := ['0', '.', '0', '.', '0', '.', '0']

/- ## `_parse_unix_route` (network_analyzer.py lines 144-170) -/

/-- Record built by the `default`/`0.0.0.0` branch of
`_parse_unix_route` (lines 153-159) from an already-stripped line:
`Destination = "default" if parts[0] == "default" else parts[0]`,
`Gateway = parts[1]`, `Genmask = parts[2] if len > 2 else ""`,
`Flags = parts[3] if len > 3 else ""`,
`Interface = parts[5] if len > 5 else ""`. -/
def unixDefaultRecord (l : List Char) : RouteRecord :=
  let parts := tokensOf l
  { destination :=
      if parts.getD 0 [] = defaultTok then String.mk defaultTok
      else String.mk (parts.getD 0 [])
  , gateway := String.mk (parts.getD 1 [])
  , netmask := if 2 < parts.length then String.mk (parts.getD 2 []) else ""
  , metricOrFlags := if 3 < parts.length then String.mk (parts.getD 3 []) else ""
  , interface := if 5 < parts.length then String.mk (parts.getD 5 []) else "" }

/-- Record built by the dotted-decimal branch of `_parse_unix_route`
(lines 163-168) from an already-stripped line:
`Destination = parts[0]`, `Gateway = parts[1]`, `Genmask = parts[2]`,
`Flags = parts[3]`, `Interface = parts[5] if len > 5 else ""`. -/
def unixIPv4Record (l : List Char) : RouteRecord :=
  let parts := tokensOf l
  { destination := String.mk (parts.getD 0 [])
  , gateway := String.mk (parts.getD 1 [])
  , netmask := String.mk (parts.getD 2 [])
  , metricOrFlags := String.mk (parts.getD 3 [])
  , interface := if 5 < parts.length then String.mk (parts.getD 5 []) else "" }

/-- The per-line body of the `_parse_unix_route` loop, applied to the
already-stripped line: the `if line.startswith("default") or
line.startswith("0.0.0.0")` branch requires at least 4 fields, the
`elif re.match(r'^\d+\.\d+\.\d+\.\d+', line)` branch requires at least
5 fields, and every other line is skipped. -/
def parseUnixStripped (l : List Char) : Option RouteRecord :=
  if startsWithL l defaultTok || startsWithL l zeroTok then
    if 4 ≤ (tokensOf l).length then some (unixDefaultRecord l) else none
  else if matchesDottedL l then
    if 5 ≤ (tokensOf l).length then some (unixIPv4Record l) else none
  else none

/-- One iteration of the `_parse_unix_route` loop: `line = line.strip()`
followed by the branch body. -/
def parseUnixLineL (line : List Char) : Option RouteRecord :=
  parseUnixStripped (pyStripL line)

/-- Model of `_parse_unix_route(output)`: split the raw text on
newlines, run the loop body on every line, and collect the appended
records in order. -/
def parse_unix_route (output : String) : List RouteRecord :=
  (splitLines output.data).filterMap parseUnixLineL

/- ## `_parse_windows_route` (network_analyzer.py lines 126-142) -/

/-- The per-line body of the `_parse_windows_route` loop on the
already-stripped line: `if line.startswith("0.0.0.0")` with at least 5
fields, mapping `Destination = parts[0]`, `Netmask = parts[1]`,
`Gateway = parts[2]`, `Interface = parts[3]`,
`Metric = parts[4] if len > 4 else ""`. -/
def parseWindowsStripped (l : List Char) : Option RouteRecord :=
  if startsWithL l zeroTok then
    if 5 ≤ (tokensOf l).length then
      some
        { destination := String.mk ((tokensOf l).getD 0 [])
        , netmask := String.mk ((tokensOf l).getD 1 [])
        , gateway := String.mk ((tokensOf l).getD 2 [])
        , interface := String.mk ((tokensOf l).getD 3 [])
        , metricOrFlags :=
            if 4 < (tokensOf l).length then String.mk ((tokensOf l).getD 4 []) else "" }
    else none
  else none

/-- One iteration of the `_parse_windows_route` loop. -/
def parseWindowsLineL (line : List Char) : Option RouteRecord :=
  parseWindowsStripped (pyStripL line)

/-- Model of `_parse_windows_route(output)`. -/
def parse_windows_route (output : String) : List RouteRecord :=
  (splitLines output.data).filterMap parseWindowsLineL

/- ## The OS-family dispatch (`_get_routing_table`, lines 101-108) -/

/-- The closed enumeration of supported OS families: `platform.system()`
values `"Windows"` (layout style 1) and `"Linux"` / `"Darwin"` (layout
style 2). -/
inductive OSFamily where
  | windows : OSFamily
  | linux : OSFamily
  | darwin : OSFamily
deriving DecidableEq

/-- `parseRouteTable` of the specification: the parser selected by
`_get_routing_table` for each supported OS family, applied to the raw
routing-table text. -/
def parseRouteTable (fam : OSFamily) (raw : String) : List RouteRecord :=
  match fam with
  | OSFamily.windows => parse_windows_route raw
  | OSFamily.linux => parse_unix_route raw
  | OSFamily.darwin => parse_unix_route raw

/- ## C1: the concrete layout-style-2 default line -/

/-- The exact raw input of claim C1: `"default"`, 9 spaces,
`"192.168.1.1"`, 5 spaces, `"0.0.0.0"`, 9 spaces, `"UG"`, 8 spaces,
`"0"`, 1 space, `"0"`, 10 spaces, `"0"`, 1 space, `"eth0"`, newline. -/
def c1input : String :=
  "default         192.168.1.1     0.0.0.0         UG        0 0          0 eth0\n"

/- ## `port_scan` (network_analyzer.py lines 287-315)

The method computes `start_port, end_port = map(int, ports.split('-'))`
inside a `try`; any exception there (a piece that is not an integer
literal, or a piece count different from two) is caught and the string
`"Scan error: ..."` is returned instead of a list.  Otherwise one
thread per port in `range(start_port, end_port + 1)` runs `connect_ex`
and appends the port to the shared `open_ports` list exactly when the
connection succeeds; the method joins every thread and returns the
list.  The embedding passes the network as an oracle `isOpen` (did the
TCP connect for this port succeed within the timeout) and the
nondeterministic thread-completion order as an explicit list `sched` of
the launched ports in the order their successful-append sections run;
a valid execution is one where `sched` is a permutation of the launched
range, which the theorems take as a hypothesis. -/

/-- Characters after the leading digit of a Python integer literal:
digits, with single underscores allowed only between digits. -/
def digitsUnd : List Char → Bool
  | [] => true
  | '_' :: c :: cs => c.isDigit && digitsUnd cs
  | c :: cs => c.isDigit && digitsUnd cs

/-- Drop one leading `'+'` sign if present (a `'-'` sign can never reach
`int()` here because the range string was already split on `'-'`). -/
def dropPlus : List Char → List Char
  | '+' :: rest => rest
  | l => l

/-- Numeric value of a digits-and-underscores literal. -/
def pyIntVal (l : List Char) : Nat :=
  (l.filter (fun c => c ≠ '_')).foldl (fun n c => 10 * n + (c.toNat - 48)) 0

/-- Model of Python `int(s)` on the pieces of the range string (ASCII
fragment): strip whitespace, allow one `'+'`, then require a digit
followed by digits with single interior underscores; anything else
raises `ValueError`, modelled as `none`. -/
def pyInt (s : List Char) : Option Nat :=
  match dropPlus (pyStripL s) with
  | [] => none
  | c :: cs => if c.isDigit && digitsUnd cs then some (pyIntVal (c :: cs)) else none

/-- Model of `start_port, end_port = map(int, ports.split('-'))`: split
the range string on `'-'`, and succeed exactly when there are exactly
two pieces and both parse as integers; otherwise the unpacking or
`int()` raises and the surrounding `except` is taken. -/
def parsePortRange (ports : String) : Option (Nat × Nat) :=
  match (splitByP (fun c => c = '-') ports.data).map pyInt with
  | [some a, some b] => some (a, b)
  | _ => none

/-- The ports launched by `for port in range(start_port, end_port + 1)`,
in launch order. -/
def portList (s e : Nat) : List Nat :=
  List.range' s (e + 1 - s)

/-- Result of one `port_scan` call: either the collected list of open
ports, or the `"Scan error: ..."` string returned from the `except`
branch. -/
inductive ScanOutcome where
  | ok : List Nat → ScanOutcome
  | scanError : ScanOutcome
deriving DecidableEq, Repr

/-- Model of `port_scan(target, ports, timeout)`.  `isOpen p` is true
when the `connect_ex` attempt for port `p` succeeded within the
timeout (a refused, timed-out or unresolvable attempt is `false` —
its thread appends nothing and its exceptions are swallowed by the
inner bare `except`).  `sched` is the order in which the per-port
threads reach their append; the returned list collects, in that order,
exactly the ports whose connect succeeded. -/
def port_scan (isOpen : Nat → Bool) (sched : List Nat) (ports : String) : ScanOutcome :=
  match parsePortRange ports with
  | none => ScanOutcome.scanError
  | some _ => ScanOutcome.ok (sched.filter isOpen)

/- ## `run_speed_test` (network_analyzer.py lines 259-285)

The method wraps everything in `try`: `st.get_best_server()` runs in
the calling thread, so an exception there is caught by the `except`
and `{'Error': str(e)}` is stored.  `st.download` and `st.upload`,
however, run as `threading.Thread` targets: in Python an exception
raised inside a thread's target is handled by `threading.excepthook`
(printed to stderr) and is NOT re-raised by `Thread.join()`, so it
never reaches the enclosing `try` — after the joins the success dict
is built from whatever numbers `st.results` holds.  The embedding
passes the outcome of each external step as a parameter:
`negotiation` is the outcome of `get_best_server()`, `dlOutcome` and
`ulOutcome` are the outcomes of the two thread bodies, and
`finalResults` is the state of `st.results` after both joins (its
numeric fields are genuine only for the measurements that did not
raise).  The dict `{'Download': ..., 'Upload': ..., 'Ping': ...,
'Server': ...}` versus `{'Error': ...}` is the sum type below; the
display-only `f"{x / 1_000_000:.2f} Mbps"` formatting is not modelled,
the success variant carries the underlying figures. -/

/-- The state of `st.results` read after the two joins: the download
and upload rates, the ping, and `st.results.server['name']`. -/
structure SpeedResults where
  download : Nat
  upload : Nat
  ping : Nat
  serverName : String
deriving DecidableEq, Repr

/-- The value stored in `self.speed_test_results`: the four-key success
dict or the `{'Error': str(e)}` dict. -/
inductive SpeedReport where
  | success : Nat → Nat → Nat → String → SpeedReport
  | failure : String → SpeedReport
deriving DecidableEq, Repr

/-- Model of `run_speed_test()`.  Only an exception of the
best-server negotiation (raised in the calling thread) reaches the
`except` branch; the outcomes of the two measurement threads are
swallowed by the thread runtime, so after the joins the success dict
is always built from `finalResults`. -/
def run_speed_test (negotiation : Except String Unit)
    (dlOutcome ulOutcome : Except String Unit)
    (finalResults : SpeedResults) : SpeedReport :=
  match negotiation with
  | Except.error e => SpeedReport.failure e
  | Except.ok _ =>
      SpeedReport.success finalResults.download finalResults.upload
        finalResults.ping finalResults.serverName

/- ## `_get_external_ip` (network_analyzer.py lines 212-220)

`requests.get('https://api.ipify.org').text` is attempted first; any
failure (bare `except`) falls through to
`requests.get('https://ident.me').text`; if that also raises, the
stored value becomes `f"Error: {str(e)}"`.  Each endpoint's outcome is
passed as an `Except`: `ok body` is the response text, `error e` is
the text of the raised exception. -/

/-- Model of `_get_external_ip()`: the value stored in
`self.external_ip`. -/
def get_external_ip (ep1 ep2 : Except String String) : String :=
  match ep1 with
  | Except.ok body => body
  | Except.error _ =>
      match ep2 with
      | Except.ok body => body
      | Except.error e => "Error: " ++ e

/- ## Line-shape predicates

The specification speaks of "recognizable" route lines: the lines that
match one of the fixed line shapes and therefore produce a record.
These predicates transcribe the guards of the two parsers. -/

/-- A line is recognized by `_parse_unix_route` exactly when, after
stripping, it enters one of the two append branches: it starts with
"default" or "0.0.0.0" and has at least 4 whitespace fields, or it
starts with a dotted-decimal IPv4 address and has at least 5 fields. -/
def unixRecognizable (line : List Char) : Bool :=
  if startsWithL (pyStripL line) defaultTok || startsWithL (pyStripL line) zeroTok then
    decide (4 ≤ (tokensOf (pyStripL line)).length)
  else if matchesDottedL (pyStripL line) then
    decide (5 ≤ (tokensOf (pyStripL line)).length)
  else false

/-- A line is recognized by `_parse_windows_route` exactly when, after
stripping, it starts with "0.0.0.0" and has at least 5 whitespace
fields. -/
def winRecognizable (line : List Char) : Bool :=
  startsWithL (pyStripL line) zeroTok && decide (5 ≤ (tokensOf (pyStripL line)).length)

/-- The recognizability predicate of the parser selected for an OS
family. -/
def lineRecognizable : OSFamily → List Char → Bool
  | OSFamily.windows => winRecognizable
  | OSFamily.linux => unixRecognizable
  | OSFamily.darwin => unixRecognizable

/-- The eligible line shape of claim C8: after stripping, the line
begins with a dotted-decimal IPv4 address and has at least 5
whitespace-separated fields. -/
def dottedGe5 (line : List Char) : Bool :=
  matchesDottedL (pyStripL line) && decide (5 ≤ (tokensOf (pyStripL line)).length)

/-- The positional field mapping of claim C8 for an eligible line:
destination = field 0, gateway = field 1, netmask = field 2,
metricOrFlags = field 3, interface = field 5 when the line has at
least 6 fields, else empty. -/
def unixDottedRecord (line : List Char) : RouteRecord :=
  unixIPv4Record (pyStripL line)

/-! ## Claims and supporting lemmas -/

/-- C1 (counterexample): on the claimed input the parser does NOT return
the record with interface "eth0".  The line splits into the 8 fields
[default, 192.168.1.1, 0.0.0.0, UG, 0, 0, 0, eth0] and the code takes
`parts[5]`, which is "0"; "eth0" sits at index 7 and is never selected. -/
theorem C1_counterexample :
    parse_unix_route c1input ≠
      [{ destination := "default", gateway := "192.168.1.1", netmask := "0.0.0.0"
       , interface := "eth0", metricOrFlags := "UG" }] := by
  decide

/-- C1 (amended): for the single raw input line of the claim, parsed
under layout style 2, the parser returns exactly one RouteRecord whose
destination is "default", gateway "192.168.1.1", netmask "0.0.0.0",
metricOrFlags "UG", and interface "0" (the whitespace field at index 5;
the literal "eth0" is field 7 of the line and is not selected). -/
theorem C1_amended :
    parse_unix_route c1input =
      [{ destination := "default", gateway := "192.168.1.1", netmask := "0.0.0.0"
       , interface := "0", metricOrFlags := "UG" }] := by
  decide

/- ## C2: ordering of the returned collection -/

/-- C2 (counterexample): the claim that the returned collection is
always ascending fails on the code: with both ports 10 and 11 open and
the port-11 thread completing before the port-10 thread (a valid
execution, `[11, 10]` being a permutation of the launched range
`[10, 11]`), the returned list is `[11, 10]`, which is not ascending. -/
theorem C2_counterexample :
    [11, 10].Perm (portList 10 11) ∧
      port_scan (fun _ => true) [11, 10] "10-11" = ScanOutcome.ok [11, 10] ∧
      ¬ ([11, 10] : List Nat).Pairwise (· < ·) := by
  refine ⟨by decide, by decide, by decide⟩

/-- C2 (amended): for every well-formed range and every valid
execution (completion order a permutation of the launched range), the
scan returns the open ports in completion order: the result is a
permutation of the ascending list of open ports in `[start, end]`, and
it is ascending whenever the threads happen to complete in launch
order — but no ascending order is guaranteed for other completion
orders. -/
theorem C2_amended (isOpen : Nat → Bool) (sched : List Nat) (ports : String)
    (s e : Nat) (hp : parsePortRange ports = some (s, e))
    (hs : sched.Perm (portList s e)) :
    ∃ l, port_scan isOpen sched ports = ScanOutcome.ok l ∧
      l.Perm ((portList s e).filter isOpen) ∧
      (sched = portList s e → l.Pairwise (· < ·)) := by
  refine ⟨sched.filter isOpen, by simp [port_scan, hp], hs.filter isOpen, ?_⟩
  intro hseq
  subst hseq
  exact (List.pairwise_lt_range' s (e + 1 - s)).filter isOpen

/-- Witness for the amended C2 at a concrete input: range "9-11" with
every port open and the out-of-order completion schedule [11, 9, 10]. -/
theorem C2_amended_witness :
    ∃ l, port_scan (fun _ => true) [11, 9, 10] "9-11" = ScanOutcome.ok l ∧
      l.Perm ((portList 9 11).filter (fun _ => true)) ∧
      ([11, 9, 10] = portList 9 11 → l.Pairwise (· < ·)) :=
  C2_amended (fun _ => true) [11, 9, 10] "9-11" 9 11 (by decide) (by decide)

/- ## C3: the scan fails as a whole exactly on range-parse errors -/

/-- C3: the call returns the error value iff the range string cannot be
parsed into two integers (and then no scan output is produced at all);
in particular "abc-10" yields the error value, never a silent empty
list; and an individual port whose connection attempt failed (its
`connect_ex` did not succeed) never fails the call — it is merely
absent from the returned list. -/
theorem C3_scan_error_iff (isOpen : Nat → Bool) (sched : List Nat) (ports : String) :
    (port_scan isOpen sched ports = ScanOutcome.scanError ↔ parsePortRange ports = none) ∧
      port_scan isOpen sched "abc-10" = ScanOutcome.scanError ∧
      (∀ p, isOpen p = false → ∀ l, port_scan isOpen sched ports = ScanOutcome.ok l → p ∉ l) := by
  refine ⟨?_, ?_, ?_⟩
  · unfold port_scan
    cases h : parsePortRange ports <;> simp
  · have h : parsePortRange "abc-10" = none := by decide
    simp [port_scan, h]
  · intro p hp l hl hmem
    unfold port_scan at hl
    cases h : parsePortRange ports with
    | none => simp [h] at hl
    | some pr =>
        simp [h] at hl
        rw [← hl] at hmem
        have := List.of_mem_filter hmem
        simp [hp] at this

/-- Witness for C3 at concrete inputs: range "3-4" with only port 3
open — the call succeeds with `[3]`, port 4 (whose attempt failed) is
merely excluded, and the malformed range "abc-10" yields the error
value. -/
theorem C3_witness :
    port_scan (fun p => decide (p = 3)) [3, 4] "3-4" = ScanOutcome.ok [3] ∧
      port_scan (fun p => decide (p = 3)) [3, 4] "abc-10" = ScanOutcome.scanError ∧
      (4 : Nat) ∉ [3] :=
  ⟨by decide,
   (C3_scan_error_iff (fun p => decide (p = 3)) [3, 4] "3-4").2.1,
   (C3_scan_error_iff (fun p => decide (p = 3)) [3, 4] "3-4").2.2 4 (by decide) [3] (by decide)⟩

/- ## C5: every returned port lies in the requested interval -/

/-- C5: for every target (oracle), well-formed range string parsing to
(start, end), timeout, and valid execution, every port in the returned
collection lies in the inclusive interval [start, end]. -/
theorem C5_ports_in_range (isOpen : Nat → Bool) (sched : List Nat) (ports : String)
    (s e : Nat) (hp : parsePortRange ports = some (s, e))
    (hs : sched.Perm (portList s e)) :
    ∀ l, port_scan isOpen sched ports = ScanOutcome.ok l →
      ∀ p ∈ l, s ≤ p ∧ p ≤ e := by
  intro l hl p hmem
  unfold port_scan at hl
  rw [hp] at hl
  simp at hl
  rw [← hl] at hmem
  have h1 : p ∈ sched := List.mem_of_mem_filter hmem
  have h2 : p ∈ portList s e := hs.mem_iff.mp h1
  unfold portList at h2
  rw [List.mem_range'] at h2
  omega

/-- Witness for C5 at a concrete input: range "9-11", all ports open,
completion order [10, 9, 11]; port 10 of the result lies in [9, 11]. -/
theorem C5_witness : 9 ≤ 10 ∧ 10 ≤ 11 :=
  C5_ports_in_range (fun _ => true) [10, 9, 11] "9-11" 9 11 (by decide) (by decide)
    [10, 9, 11] (by decide) 10 (by decide)

/- ## C10: inverted range gives an empty result, not an error -/

/-- C10: when the range string parses to (start, end) with start > end,
`range(start_port, end_port + 1)` is empty, no thread is launched, and
the call returns the empty list — an inverted range is an empty range,
not malformed syntax. -/
theorem C10_inverted_range (isOpen : Nat → Bool) (sched : List Nat) (ports : String)
    (s e : Nat) (hp : parsePortRange ports = some (s, e)) (hlt : e < s)
    (hs : sched.Perm (portList s e)) :
    port_scan isOpen sched ports = ScanOutcome.ok [] := by
  have hnil : portList s e = [] := by
    unfold portList
    have : e + 1 - s = 0 := by omega
    rw [this]
    rfl
  rw [hnil] at hs
  have : sched = [] := List.perm_nil.mp hs
  subst this
  simp [port_scan, hp]

/-- Witness for C10 at the claim's example input "443-80": the range
parses to (443, 80), and the scan returns the empty list. -/
theorem C10_witness :
    parsePortRange "443-80" = some (443, 80) ∧
      port_scan (fun _ => true) [] "443-80" = ScanOutcome.ok [] :=
  ⟨by decide,
   C10_inverted_range (fun _ => true) [] "443-80" 443 80 (by decide) (by decide) (by decide)⟩

/- ## C6: measurement-phase errors and the failure variant -/

/-- C6 (divergence witness): negotiation succeeds, the download thread
raises (outcome `error "connection reset"`), the upload thread
succeeds; the code still returns the success variant built from the
post-join `st.results` figures (here a zero download value and a
genuine upload value), not the failure variant the claim requires —
the thread's exception is swallowed by Python's threading runtime and
never reaches the method's `except`. -/
theorem C6_code_divergence :
    run_speed_test (Except.ok ()) (Except.error "connection reset") (Except.ok ())
      { download := 0, upload := 37, ping := 12, serverName := "TestServer" } =
      SpeedReport.success 0 37 12 "TestServer" := rfl

/- ## C7: the two report variants -/

/-- C7 (counterexample): the claim requires the failure variant to
carry a nonempty error message, but the code stores `str(e)` verbatim;
an exception whose text is empty (e.g. `ConnectionError()` raised by
the negotiation) produces the failure dict with an empty message. -/
theorem C7_counterexample :
    run_speed_test (Except.error "") (Except.ok ()) (Except.ok ())
      { download := 0, upload := 0, ping := 0, serverName := "" } =
      SpeedReport.failure "" ∧ ("" : String).length = 0 :=
  ⟨rfl, rfl⟩

/-- C7 (amended): every invocation returns a value (no exception
propagates past the method's `except`), and the returned report is
exactly one of the two variants: the success record carrying all four
fields, or the failure record carrying verbatim the text of the
caught negotiation error (hence nonempty exactly when that exception's
text is nonempty). -/
theorem C7_amended (negotiation dlOutcome ulOutcome : Except String Unit)
    (finalResults : SpeedResults) :
    (∃ d u p s, run_speed_test negotiation dlOutcome ulOutcome finalResults =
        SpeedReport.success d u p s) ∨
      (∃ e, run_speed_test negotiation dlOutcome ulOutcome finalResults =
          SpeedReport.failure e ∧ negotiation = Except.error e) := by
  cases negotiation with
  | ok u => exact Or.inl ⟨_, _, _, _, rfl⟩
  | error e => exact Or.inr ⟨e, rfl, rfl⟩

/-- Witness for the amended C7 at a concrete input. -/
theorem C7_amended_witness :
    (∃ d u p s, run_speed_test (Except.ok ()) (Except.ok ()) (Except.ok ())
        { download := 1, upload := 2, ping := 3, serverName := "srv" } =
        SpeedReport.success d u p s) ∨
      (∃ e, run_speed_test (Except.ok ()) (Except.ok ()) (Except.ok ())
          { download := 1, upload := 2, ping := 3, serverName := "srv" } =
          SpeedReport.failure e ∧ (Except.ok () : Except String Unit) = Except.error e) :=
  C7_amended (Except.ok ()) (Except.ok ()) (Except.ok ())
    { download := 1, upload := 2, ping := 3, serverName := "srv" }

/- ## C9: two-endpoint fallback and the error string -/

/-- C9: the lookup first tries endpoint 1 (returning its body when it
succeeds, regardless of endpoint 2), on any failure of endpoint 1
tries endpoint 2 (returning its body when it succeeds), and when both
fail stores a string beginning with "Error:"; in every case a string
is stored and no exception escapes (the model is a total function). -/
theorem C9_fallback (ep1 ep2 : Except String String) :
    (∀ body, ep1 = Except.ok body → get_external_ip ep1 ep2 = body) ∧
      (∀ e body, ep1 = Except.error e → ep2 = Except.ok body →
        get_external_ip ep1 ep2 = body) ∧
      (∀ e1 e2, ep1 = Except.error e1 → ep2 = Except.error e2 →
        startsWithL (get_external_ip ep1 ep2).data ("Error:".data) = true) := by
  refine ⟨?_, ?_, ?_⟩
  · intro body h
    subst h
    rfl
  · intro e body h1 h2
    subst h1
    subst h2
    rfl
  · intro e1 e2 h1 h2
    subst h1
    subst h2
    show startsWithL ("Error: " ++ e2).data ("Error:".data) = true
    have : ("Error: " ++ e2).data = 'E' :: 'r' :: 'r' :: 'o' :: 'r' :: ':' :: ' ' :: e2.data := by
      cases e2
      rfl
    rw [this]
    rfl

/-- Witness for C9 at a concrete input: both endpoints fail and the
stored text begins with "Error:". -/
theorem C9_witness :
    startsWithL (get_external_ip (Except.error "timeout") (Except.error "refused")).data
      ("Error:".data) = true :=
  (C9_fallback (Except.error "timeout") (Except.error "refused")).2.2 "timeout" "refused" rfl rfl

/- ## Supporting lemmas for the parser claims -/

/-- A digit character is not Python whitespace. -/
lemma digit_not_white (c : Char) (hc : c.isDigit = true) : pyWhite c = false := by
  by_contra h
  have hw : pyWhite c = true := by
    cases hpw : pyWhite c
    · exact absurd hpw h
    · rfl
  unfold pyWhite at hw
  simp only [Bool.or_eq_true, decide_eq_true_eq] at hw
  rcases hw with ((((h1 | h1) | h1) | h1) | h1) | h1 <;> subst h1 <;>
    exact absurd hc (by decide)

/-- A line matching the dotted-decimal regex starts with a digit. -/
lemma matchesDotted_head (l : List Char) (h : matchesDottedL l = true) :
    ∃ c rest, l = c :: rest ∧ c.isDigit = true := by
  cases l with
  | nil => exact absurd h (by decide)
  | cons c rest =>
      refine ⟨c, rest, rfl, ?_⟩
      by_contra hc
      have hc2 : c.isDigit = false := by
        cases hd : c.isDigit
        · rfl
        · exact absurd hd hc
      unfold matchesDottedL at h
      rw [show digitsThen (c :: rest) = none from by simp [digitsThen, hc2]] at h
      simp at h

/-- Splitting never produces the empty list of groups. -/
lemma splitStep_ne_nil (p : Char → Bool) (c : Char) (acc : List (List Char)) :
    splitStep p c acc ≠ [] := by
  unfold splitStep
  by_cases h : p c = true
  · simp [h]
  · have h2 : p c = false := by
      cases hp : p c
      · rfl
      · exact absurd hp h
    rw [if_neg (by simp [h2])]
    cases acc <;> simp

/-- Splitting never produces the empty list of groups. -/
lemma splitByP_ne_nil (p : Char → Bool) (l : List Char) : splitByP p l ≠ [] := by
  cases l with
  | nil => simp [splitByP]
  | cons c cs => exact splitStep_ne_nil p c (splitByP p cs)

/-- The first token of a line starting with a non-whitespace character
starts with that character. -/
lemma tokensOf_cons (c : Char) (cs : List Char) (hc : pyWhite c = false) :
    ∃ g gs, tokensOf (c :: cs) = (c :: g) :: gs := by
  obtain ⟨g0, gs0, hsplit⟩ : ∃ g0 gs0, splitByP pyWhite cs = g0 :: gs0 := by
    cases h : splitByP pyWhite cs with
    | nil => exact absurd h (splitByP_ne_nil _ _)
    | cons a b => exact ⟨a, b, rfl⟩
  refine ⟨g0, gs0.filter (fun g => g ≠ []), ?_⟩
  have hstep : splitByP pyWhite (c :: cs) = (c :: g0) :: gs0 := by
    show splitStep pyWhite c (splitByP pyWhite cs) = _
    rw [hsplit]
    unfold splitStep
    rw [if_neg (by simp [hc])]
  unfold tokensOf
  rw [hstep, List.filter_cons]
  simp

/-- On an eligible (dotted, at-least-5-field) stripped line both append
branches of `_parse_unix_route` agree with the positional mapping of
the dotted branch, and the line is recognized. -/
lemma parseUnixStripped_dotted (l : List Char)
    (hm : matchesDottedL l = true) (hlen : 5 ≤ (tokensOf l).length) :
    parseUnixStripped l = some (unixIPv4Record l) := by
  obtain ⟨c, rest, rfl, hc⟩ := matchesDotted_head l hm
  have hw : pyWhite c = false := digit_not_white c hc
  obtain ⟨g, gs, htok⟩ := tokensOf_cons c rest hw
  have hd : startsWithL (c :: rest) defaultTok = false := by
    have hcd : c ≠ 'd' := by
      intro h
      subst h
      exact absurd hc (by decide)
    unfold defaultTok
    unfold startsWithL
    simp [hcd]
  have hne : (tokensOf (c :: rest)).getD 0 [] ≠ defaultTok := by
    rw [htok]
    simp only [List.getD_cons_zero]
    intro h
    unfold defaultTok at h
    have : c = 'd' := List.head_eq_of_cons_eq h
    subst this
    exact absurd hc (by decide)
  unfold parseUnixStripped
  rw [hd]
  simp only [Bool.false_or]
  by_cases hz : startsWithL (c :: rest) zeroTok = true
  · rw [if_pos hz, if_pos (by omega : 4 ≤ (tokensOf (c :: rest)).length)]
    have h2 : 2 < (tokensOf (c :: rest)).length := by omega
    have h3 : 3 < (tokensOf (c :: rest)).length := by omega
    unfold unixDefaultRecord unixIPv4Record
    simp only [if_pos h2, if_pos h3, if_neg hne]
  · rw [if_neg hz, if_pos hm, if_pos hlen]

/-- On a line satisfying `dottedGe5` the parser produces exactly the
positional record of claim C8. -/
lemma parseUnixLineL_dotted (line : List Char) (h : dottedGe5 line = true) :
    parseUnixLineL line = some (unixDottedRecord line) := by
  unfold dottedGe5 at h
  simp only [Bool.and_eq_true, decide_eq_true_eq] at h
  exact parseUnixStripped_dotted (pyStripL line) h.1 h.2

/-- Recognizability characterizes the unix parser producing a record. -/
lemma parseUnixLineL_isSome (line : List Char) :
    (parseUnixLineL line).isSome = unixRecognizable line := by
  unfold parseUnixLineL parseUnixStripped unixRecognizable
  by_cases h1 :
      (startsWithL (pyStripL line) defaultTok || startsWithL (pyStripL line) zeroTok) = true
  · rw [if_pos h1, if_pos h1]
    by_cases h2 : 4 ≤ (tokensOf (pyStripL line)).length <;> simp [h2]
  · rw [if_neg h1, if_neg h1]
    by_cases h3 : matchesDottedL (pyStripL line) = true
    · rw [if_pos h3, if_pos h3]
      by_cases h4 : 5 ≤ (tokensOf (pyStripL line)).length <;> simp [h4]
    · rw [if_neg h3, if_neg h3]
      rfl

/-- Recognizability characterizes the windows parser producing a
record. -/
lemma parseWindowsLineL_isSome (line : List Char) :
    (parseWindowsLineL line).isSome = winRecognizable line := by
  unfold parseWindowsLineL parseWindowsStripped winRecognizable
  by_cases h1 : startsWithL (pyStripL line) zeroTok = true
  · rw [if_pos h1, h1]
    by_cases h2 : 5 ≤ (tokensOf (pyStripL line)).length <;> simp [h2]
  · rw [if_neg h1]
    have h1f : startsWithL (pyStripL line) zeroTok = false := by
      cases hp : startsWithL (pyStripL line) zeroTok
      · rfl
      · exact absurd hp h1
    rw [h1f]
    rfl

/-- When every recognized line of the input is an eligible dotted line,
the parse output is exactly the positional mapping of the eligible
lines, in order. -/
lemma filterMap_parseUnix_eq (lines : List (List Char))
    (H : ∀ line ∈ lines, (parseUnixLineL line).isSome = true → dottedGe5 line = true) :
    lines.filterMap parseUnixLineL = (lines.filter dottedGe5).map unixDottedRecord := by
  induction lines with
  | nil => rfl
  | cons l ls ih =>
      have Hl := H l (List.mem_cons_self l ls)
      have Hls : ∀ line ∈ ls, (parseUnixLineL line).isSome = true → dottedGe5 line = true :=
        fun line hl => H line (List.mem_cons_of_mem _ hl)
      by_cases hd5 : dottedGe5 l = true
      · rw [List.filterMap_cons, parseUnixLineL_dotted l hd5, List.filter_cons]
        rw [if_pos hd5, List.map_cons, ih Hls]
      · have hnone : parseUnixLineL l = none := by
          cases hopt : parseUnixLineL l with
          | none => rfl
          | some r => exact absurd (Hl (by rw [hopt]; rfl)) hd5
        rw [List.filterMap_cons, hnone, List.filter_cons]
        have hd5f : dottedGe5 l = false := by
          cases hp : dottedGe5 l
          · rfl
          · exact absurd hp hd5
        rw [hd5f]
        simp only [Bool.false_eq_true, if_false]
        exact ih Hls

/- ## C4: totality and the zero-recognizable-lines case -/

/-- C4: `parseRouteTable` is a total function of the OS family and the
raw text (it is a Lean function, so no exception is possible), and
whenever the raw text contains zero recognizable route lines the
returned sequence is empty. -/
theorem C4_zero_recognizable (fam : OSFamily) (raw : String)
    (h : ((splitLines raw.data).filter (lineRecognizable fam)).length = 0) :
    parseRouteTable fam raw = [] := by
  have h0 : (splitLines raw.data).filter (lineRecognizable fam) = [] :=
    List.length_eq_zero.mp h
  have hfe : ∀ line ∈ splitLines raw.data, lineRecognizable fam line = false := by
    intro line hline
    have := List.filter_eq_nil_iff.mp h0 line hline
    cases hp : lineRecognizable fam line
    · rfl
    · exact absurd hp this
  cases fam with
  | windows =>
      show parse_windows_route raw = []
      unfold parse_windows_route
      rw [List.filterMap_eq_nil_iff]
      intro line hline
      have hr := hfe line hline
      cases hopt : parseWindowsLineL line with
      | none => rfl
      | some r =>
          exfalso
          have hs : winRecognizable line = true := by
            rw [← parseWindowsLineL_isSome, hopt]
            rfl
          rw [show lineRecognizable OSFamily.windows = winRecognizable from rfl] at hr
          rw [hs] at hr
          exact absurd hr (by decide)
  | linux =>
      show parse_unix_route raw = []
      unfold parse_unix_route
      rw [List.filterMap_eq_nil_iff]
      intro line hline
      have hr := hfe line hline
      cases hopt : parseUnixLineL line with
      | none => rfl
      | some r =>
          exfalso
          have hs : unixRecognizable line = true := by
            rw [← parseUnixLineL_isSome, hopt]
            rfl
          rw [show lineRecognizable OSFamily.linux = unixRecognizable from rfl] at hr
          rw [hs] at hr
          exact absurd hr (by decide)
  | darwin =>
      show parse_unix_route raw = []
      unfold parse_unix_route
      rw [List.filterMap_eq_nil_iff]
      intro line hline
      have hr := hfe line hline
      cases hopt : parseUnixLineL line with
      | none => rfl
      | some r =>
          exfalso
          have hs : unixRecognizable line = true := by
            rw [← parseUnixLineL_isSome, hopt]
            rfl
          rw [show lineRecognizable OSFamily.darwin = unixRecognizable from rfl] at hr
          rw [hs] at hr
          exact absurd hr (by decide)

/-- Witness for C4 at a concrete garbage input under the linux family:
no line is recognizable and the parse is empty. -/
theorem C4_witness :
    parseRouteTable OSFamily.linux "no routes here\n192.168 incomplete\n" = [] :=
  C4_zero_recognizable OSFamily.linux "no routes here\n192.168 incomplete\n" (by decide)

/- ## C8: eligible dotted lines map positionally -/

/-- C8: under layout style 2, for raw input all of whose recognizable
lines begin with a dotted-decimal IPv4 address and have at least 5
whitespace fields, the output is exactly the eligible lines in order,
each mapped positionally (destination, gateway, netmask, metricOrFlags
from fields 0-3, interface from field 5 when at least 6 fields exist),
and in particular the record count equals the eligible-line count. -/
theorem C8_dotted_lines (raw : String)
    (H : ∀ line ∈ splitLines raw.data,
      (parseUnixLineL line).isSome = true → dottedGe5 line = true) :
    parse_unix_route raw = ((splitLines raw.data).filter dottedGe5).map unixDottedRecord ∧
      (parse_unix_route raw).length = ((splitLines raw.data).filter dottedGe5).length := by
  have h := filterMap_parseUnix_eq (splitLines raw.data) H
  constructor
  · exact h
  · show ((splitLines raw.data).filterMap parseUnixLineL).length = _
    rw [h, List.length_map]

/-- Witness for C8 at a concrete input: a header line (unrecognized)
followed by one eligible 6-field dotted line. -/
theorem C8_witness :
    parse_unix_route "Kernel IP routing table\n10.1.2.0 10.1.2.1 255.255.255.0 UG 0 eth1\n" =
      ((splitLines ("Kernel IP routing table\n10.1.2.0 10.1.2.1 255.255.255.0 UG 0 eth1\n" : String).data).filter
        dottedGe5).map unixDottedRecord :=
  (C8_dotted_lines "Kernel IP routing table\n10.1.2.0 10.1.2.1 255.255.255.0 UG 0 eth1\n"
    (by decide)).1
